import Mathlib

/-!
Verification development for the QR attendance system repository
(apps qr_attendance_system/lecturer and qr_attendance_system/form).

Shallow embedding conventions:
* times are integers counting minutes (a `timezone.now()` value is an `Int`;
  `timedelta(minutes=n)` is the integer `n`; `timedelta(hours=24)` is `24*60`);
* nullable database columns are `Option` values (`None` is `none`);
* database tables are Lean lists of rows;
* Python functions that can raise are embedded in `Except String`, the error
  string naming the Python exception class.
-/

/-- Row of the LoginAttempt table (lecturer/models.py, class LoginAttempt):
ip_address, optional username, timestamp, successful flag. -/
structure LoginAttempt where
  ip_address : String
  username : Option String
  timestamp : Int
  successful : Bool
deriving Repr, DecidableEq

/-- Result triple of check_rate_limit (lecturer/utils.py line 163):
(is_blocked, total_attempts, time_until_reset). -/
structure RateLimitResult where
  is_blocked : Bool
  attempts : Nat
  time_until_reset : Option Int
deriving Repr, DecidableEq

/-- Filter used both by the counting queries and by the oldest-attempt query of
check_rate_limit: rows with the given ip_address, timestamp >= cutoff and
successful = False (lecturer/utils.py lines 132-136 and 153-157). -/
def ipQualifies (ip : String) (cutoff : Int) (a : LoginAttempt) : Bool :=
  a.ip_address == ip && decide (cutoff ≤ a.timestamp) && !a.successful

/-- Filter of the username counting query of check_rate_limit
(lecturer/utils.py lines 141-145). -/
def usernameQualifies (u : String) (cutoff : Int) (a : LoginAttempt) : Bool :=
  a.username == some u && decide (cutoff ≤ a.timestamp) && !a.successful

/-- `.order_by('timestamp').first()` on a list of rows: the earliest-timestamp
row, earlier list position winning ties. -/
def firstByTimestamp : List LoginAttempt → Option LoginAttempt
  | [] => none
  | a :: rest =>
    match firstByTimestamp rest with
    | none => some a
    | some b => if a.timestamp ≤ b.timestamp then some a else some b

/-- check_rate_limit (lecturer/utils.py lines 124-163).
Counts failed attempts in the trailing window for the ip key and (when given)
the username, takes the max, blocks when it reaches max_attempts, and when
blocked looks up the oldest qualifying attempt FOR THE IP to compute
time_until_reset; if that query is empty, time_until_reset stays None while
is_blocked remains True. -/
def check_rate_limit (db : List LoginAttempt) (now : Int) (ip_address : String)
    (username : Option String) (max_attempts : Nat) (window_minutes : Int) :
    RateLimitResult :=
  let cutoff_time := now - window_minutes
  let ip_attempts := (db.filter (ipQualifies ip_address cutoff_time)).length
  let username_attempts :=
    match username with
    | none => 0
    | some u => (db.filter (usernameQualifies u cutoff_time)).length
  let total_attempts := max ip_attempts username_attempts
  let is_blocked := decide (max_attempts ≤ total_attempts)
  let time_until_reset :=
    if is_blocked then
      match firstByTimestamp (db.filter (ipQualifies ip_address cutoff_time)) with
      | some oldest => some (oldest.timestamp + window_minutes - now)
      | none => none
    else none
  ⟨is_blocked, total_attempts, time_until_reset⟩

/-- Five failed attempts from one ip at minutes now-1 .. now-5, all inside a
15-minute window. -/
def recentFailures (now : Int) (ip : String) : List LoginAttempt :=
  [⟨ip, none, now - 1, false⟩, ⟨ip, none, now - 2, false⟩,
   ⟨ip, none, now - 3, false⟩, ⟨ip, none, now - 4, false⟩,
   ⟨ip, none, now - 5, false⟩]

/-- The same five failed attempts moved to minutes now-20 .. now-16, all
outside a 15-minute window. -/
def staleFailures (now : Int) (ip : String) : List LoginAttempt :=
  [⟨ip, none, now - 20, false⟩, ⟨ip, none, now - 19, false⟩,
   ⟨ip, none, now - 18, false⟩, ⟨ip, none, now - 17, false⟩,
   ⟨ip, none, now - 16, false⟩]

/-- Ledger in which all five recent failures for username alice were recorded
from another ip address: the ip-keyed oldest-attempt query of check_rate_limit
finds nothing although the username count reaches the threshold. -/
def purgedDb : List LoginAttempt :=
  [⟨"10.0.0.9", some "alice", 1, false⟩, ⟨"10.0.0.9", some "alice", 2, false⟩,
   ⟨"10.0.0.9", some "alice", 3, false⟩, ⟨"10.0.0.9", some "alice", 4, false⟩,
   ⟨"10.0.0.9", some "alice", 5, false⟩]

/-- C1: with max_attempts=5, window_minutes=15 and no username,
check_rate_limit blocks exactly when the ledger holds at least 5 records for
the ip key with successful=false and timestamp >= now-15; in particular five
failures at now-1..now-5 block and the same five at now-20..now-16 do not. -/
theorem check_rate_limit_blocked_iff :
    (∀ (db : List LoginAttempt) (now : Int) (ip : String),
      (check_rate_limit db now ip none 5 15).is_blocked = true ↔
        5 ≤ (db.filter (fun a =>
          a.ip_address == ip && decide (now - 15 ≤ a.timestamp) && !a.successful)).length)
    ∧ (∀ (now : Int) (ip : String),
      (check_rate_limit (recentFailures now ip) now ip none 5 15).is_blocked = true)
    ∧ (∀ (now : Int) (ip : String),
      (check_rate_limit (staleFailures now ip) now ip none 5 15).is_blocked = false) := by
  refine ⟨?_, ?_, ?_⟩
  · intro db now ip
    rw [show (check_rate_limit db now ip none 5 15).is_blocked
        = decide (5 ≤ max (db.filter (ipQualifies ip (now - 15))).length 0) from rfl]
    rw [Nat.max_zero, decide_eq_true_iff]
    exact Iff.rfl
  · intro now ip
    have h1 : now - 15 ≤ now - 1 := by omega
    have h2 : now - 15 ≤ now - 2 := by omega
    have h3 : now - 15 ≤ now - 3 := by omega
    have h4 : now - 15 ≤ now - 4 := by omega
    have h5 : now - 15 ≤ now - 5 := by omega
    simp [check_rate_limit, recentFailures, ipQualifies, h1, h2, h3, h4, h5]
  · intro now ip
    have h1 : ¬ (now - 15 ≤ now - 16) := by omega
    have h2 : ¬ (now - 15 ≤ now - 17) := by omega
    have h3 : ¬ (now - 15 ≤ now - 18) := by omega
    have h4 : ¬ (now - 15 ≤ now - 19) := by omega
    have h5 : ¬ (now - 15 ≤ now - 20) := by omega
    simp [check_rate_limit, staleFailures, ipQualifies, h1, h2, h3, h4, h5]

/-- C6 counterexample: a state where the rate-limit count reaches 5 recent
failures (via the username key) while the oldest-qualifying-attempt query for
the ip finds nothing; check_rate_limit still reports blocked=true (with
time_until_reset=none), not the fail-open not-blocked the claim states. -/
theorem check_rate_limit_failopen_counterexample :
    (purgedDb.filter (ipQualifies "1.2.3.4" (10 - 15)) = []
      ∧ firstByTimestamp (purgedDb.filter (ipQualifies "1.2.3.4" (10 - 15))) = none)
    ∧ check_rate_limit purgedDb 10 "1.2.3.4" (some "alice") 5 15 =
        ⟨true, 5, none⟩ := by
  decide

/-- C6 amended: when the count of recent failures reaches max_attempts but the
oldest-qualifying-attempt query for the ip returns nothing, check_rate_limit
reports the identity as blocked with time_until_reset = none (fail-closed with
no retry time), not as not blocked. -/
theorem check_rate_limit_blocked_without_reset (db : List LoginAttempt) (now : Int)
    (ip u : String) (hips : db.filter (ipQualifies ip (now - 15)) = [])
    (hcount : 5 ≤ (db.filter (usernameQualifies u (now - 15))).length) :
    check_rate_limit db now ip (some u) 5 15 =
      ⟨true, (db.filter (usernameQualifies u (now - 15))).length, none⟩ := by
  simp [check_rate_limit, hips, hcount, firstByTimestamp]

/-- C6 witness: the amended theorem applied at the concrete purged ledger. -/
theorem check_rate_limit_blocked_without_reset_witness :
    check_rate_limit purgedDb 10 "1.2.3.4" (some "alice") 5 15 =
      ⟨true, (purgedDb.filter (usernameQualifies "alice" (10 - 15))).length, none⟩ :=
  check_rate_limit_blocked_without_reset purgedDb 10 "1.2.3.4" "alice"
    (by decide) (by decide)

/-- Row of the Lecturer table (lecturer/models.py, class Lecturer), restricted
to the fields the authentication and email flows read or write. `password`
stands for the stored credential; the embedded authenticate compares it with
the submitted password. `email_verification_code` and its `_created` companion
are the plain instance attributes assigned by initiate_email_change (models.py
lines 49-50; they are not declared as model fields); in this in-memory
embedding they live on the row. -/
structure Lecturer where
  id : Nat
  username : String
  password : String
  email : String
  email_verified : Bool
  is_active : Bool
  verification_token : Option String
  verification_token_created : Option Int
  verification_code : Option String
  verification_code_created : Option Int
  new_email : Option String
  email_change_token : Option String
  email_change_token_created : Option Int
  email_verification_code : Option String
  email_verification_code_created : Option Int
  failed_login_attempts : Nat
  last_failed_login : Option Int
  account_locked_until : Option Int
deriving Repr, DecidableEq

/-- Database state touched by login_view: the Lecturer rows and the
LoginAttempt ledger. login_view never calls log_login_attempt, so the ledger
is left unchanged by every branch. -/
structure LoginState where
  lecturers : List Lecturer
  attempts : List LoginAttempt
deriving Repr, DecidableEq

/-- Django authenticate with the default model backend: the row whose username
matches, whose stored credential matches the submitted password and which is
active; otherwise None (usernames are unique in the table). -/
def authenticate (db : List Lecturer) (username password : String) : Option Lecturer :=
  db.find? (fun l => l.username == username && l.password == password && l.is_active)

/-- `instance.save()`: replace the row with the same primary key. -/
def saveLecturer (db : List Lecturer) (l : Lecturer) : List Lecturer :=
  db.map (fun o => if o.id == l.id then l else o)

/-- User-visible outcome of a POST to login_view (lecturer/views.py 40-171).
`nameError` models the unhandled Python NameError raised on line 72, where the
code tests the undefined name `time_since_attempt` (the variable defined on
line 71 is `time_since_last_attempt`); the surrounding try only catches
Lecturer.DoesNotExist, so the request fails with a server error instead of the
intended lockout message. -/
inductive LoginResponse
  | rateLimited (time_remaining : Option Int)
  | nameError
  | unverifiedEmail
  | loginSuccess
  | invalidCredentials
deriving Repr, DecidableEq

/-- Tail of login_view from line 103 (`user = authenticate(...)`) on.
On success (lines 105-134) the counter and last-failure timestamp are cleared
only when failed_login_attempts > 0. On failure, the local `user` now holds
authenticate's result, which is None exactly when this branch runs, so the
`if user is not None and isinstance(user, Lecturer)` increment-and-lock block
(lines 138-164) is dead code and the view falls through to the generic
'Invalid username or password.' message (line 167). -/
def login_view_auth (st : LoginState) (username password : String) :
    LoginResponse × LoginState :=
  match authenticate st.lecturers username password with
  | some u =>
    if 0 < u.failed_login_attempts then
      let u' := { u with failed_login_attempts := 0, last_failed_login := none }
      (LoginResponse.loginSuccess, { st with lecturers := saveLecturer st.lecturers u' })
    else
      (LoginResponse.loginSuccess, st)
  | none => (LoginResponse.invalidCredentials, st)

/-- POST branch of login_view (lecturer/views.py lines 40-171).
The rate-limit check uses the key "login_ip_" ++ ip and no username; since no
branch of login_view records a LoginAttempt, and registration records plain ip
addresses, no row ever carries such a key. The per-account lockout test
(line 70) fires only when failed_login_attempts >= 5 and last_failed_login is
set, and then raises NameError (line 72) before comparing any time. -/
def login_view (st : LoginState) (now : Int) (ip username password : String) :
    LoginResponse × LoginState :=
  if (check_rate_limit st.attempts now ("login_ip_" ++ ip) none 5 15).is_blocked then
    (LoginResponse.rateLimited
      (check_rate_limit st.attempts now ("login_ip_" ++ ip) none 5 15).time_until_reset, st)
  else
    match st.lecturers.find? (fun l => l.username == username) with
    | some u =>
      if decide (5 ≤ u.failed_login_attempts) && u.last_failed_login.isSome then
        (LoginResponse.nameError, st)
      else if !u.email_verified then
        (LoginResponse.unverifiedEmail, st)
      else
        login_view_auth st username password
    | none => login_view_auth st username password

/-- A verified, active account with the stored credential "correct-horse" and
no failed-attempt history. -/
def aliceAcct : Lecturer :=
  ⟨1, "alice", "correct-horse", "alice@example.com", true, true,
   none, none, none, none, none, none, none, none, none, 0, none, none⟩

/-- Initial login state: just alice, empty attempt ledger. -/
def aliceState : LoginState := ⟨[aliceAcct], []⟩

/-- C2: the claimed lockout never happens. Five consecutive failed logins for
alice leave the database unchanged (the failed-attempt counter stays 0,
because line 103 overwrote `user` with authenticate's None before the
increment block), so the 6th attempt with the correct password succeeds and
the 6th attempt with a wrong password yields the generic invalid-credentials
message - neither is a Locked rejection. -/
theorem login_sixth_attempt_not_locked :
    (List.range 5).foldl
        (fun s _ => (login_view s 100 "9.9.9.9" "alice" "wrong-pass").2)
        aliceState = aliceState
    ∧ (login_view aliceState 100 "9.9.9.9" "alice" "wrong-pass")
        = (LoginResponse.invalidCredentials, aliceState)
    ∧ (login_view aliceState 100 "9.9.9.9" "alice" "correct-horse").1
        = LoginResponse.loginSuccess
    ∧ aliceAcct.failed_login_attempts = 0 := by
  decide

/-- A verified, active account whose last_failed_login timestamp is still set
while the failed-attempt counter is already 0 (the lockout-expiry reset on
views.py lines 81-83 clears only the counter, so such states are intended). -/
def bobAcct : Lecturer :=
  ⟨2, "bob", "pw-bob", "bob@example.com", true, true,
   none, none, none, none, none, none, none, none, none, 0, some 3, none⟩

/-- A verified, active account with a positive failed-attempt counter and a
recorded failure time. -/
def carolAcct : Lecturer :=
  ⟨3, "carol", "pw-carol", "carol@example.com", true, true,
   none, none, none, none, none, none, none, none, none, 3, some 50, none⟩

/-- C3 counterexample: bob logs in successfully with the correct password, yet
the stored failure timestamp is NOT cleared - the reset block (views.py lines
106-110) runs only when failed_login_attempts > 0, and bob's counter is 0
while last_failed_login is still set. -/
theorem login_success_keeps_stale_timestamp :
    bobAcct.failed_login_attempts = 0
    ∧ bobAcct.last_failed_login = some 3
    ∧ login_view ⟨[bobAcct], []⟩ 100 "9.9.9.9" "bob" "pw-bob"
        = (LoginResponse.loginSuccess, ⟨[bobAcct], []⟩) := by
  decide

/-- Helper for the login_view success analysis: what login_view_auth does on a
one-account database when it reports success. -/
lemma login_view_auth_singleton (l : Lecturer) (A : List LoginAttempt)
    (username password : String) (resp : LoginResponse) (st' : LoginState)
    (hE : login_view_auth ⟨[l], A⟩ username password = (resp, st'))
    (h : resp = LoginResponse.loginSuccess) :
    ∃ l', st'.lecturers = [l'] ∧ l'.failed_login_attempts = 0
      ∧ (0 < l.failed_login_attempts → l'.last_failed_login = none)
      ∧ (l.failed_login_attempts = 0 → l' = l) := by
  subst h
  unfold login_view_auth at hE
  split at hE
  · rename_i u hfind
    have hul : u = l := by
      unfold authenticate at hfind
      have hmem := List.mem_of_find?_eq_some hfind
      simpa using hmem
    subst hul
    split at hE
    · rename_i hpos
      injection hE with h1 h2
      refine ⟨{ u with failed_login_attempts := 0, last_failed_login := none },
        ?_, rfl, fun _ => rfl, fun h0 => absurd hpos (by omega)⟩
      rw [← h2]
      simp [saveLecturer]
    · rename_i hneg
      injection hE with h1 h2
      have hl0 : u.failed_login_attempts = 0 := by omega
      exact ⟨u, by rw [← h2], hl0, fun hc => absurd hc hneg, fun _ => rfl⟩
  · injection hE with h1 h2
    exact absurd h1 (by simp)

/-- C3 amended: on a one-account database, a successful login always leaves
failed_login_attempts = 0, and clears last_failed_login whenever the prior
counter was positive; when the prior counter was already 0 the row (including
any stale last_failed_login timestamp) is left entirely unchanged. -/
theorem login_success_resets_counter (l : Lecturer) (A : List LoginAttempt)
    (now : Int) (ip username password : String)
    (h : (login_view ⟨[l], A⟩ now ip username password).1 = LoginResponse.loginSuccess) :
    ∃ l', (login_view ⟨[l], A⟩ now ip username password).2.lecturers = [l']
      ∧ l'.failed_login_attempts = 0
      ∧ (0 < l.failed_login_attempts → l'.last_failed_login = none)
      ∧ (l.failed_login_attempts = 0 → l' = l) := by
  rcases hE : login_view ⟨[l], A⟩ now ip username password with ⟨resp, st'⟩
  rw [hE] at h
  replace h : resp = LoginResponse.loginSuccess := h
  subst h
  unfold login_view at hE
  split at hE
  · injection hE with h1 h2
    exact absurd h1 (by simp)
  · split at hE
    · split at hE
      · injection hE with h1 h2
        exact absurd h1 (by simp)
      · split at hE
        · injection hE with h1 h2
          exact absurd h1 (by simp)
        · exact login_view_auth_singleton l A username password
            LoginResponse.loginSuccess st' hE rfl
    · exact login_view_auth_singleton l A username password
        LoginResponse.loginSuccess st' hE rfl

/-- C3 witness: the amended theorem applied to carol, whose counter is 3. -/
theorem login_success_resets_counter_witness :
    ∃ l', (login_view ⟨[carolAcct], []⟩ 100 "9.9.9.9" "carol" "pw-carol").2.lecturers = [l']
      ∧ l'.failed_login_attempts = 0
      ∧ (0 < carolAcct.failed_login_attempts → l'.last_failed_login = none)
      ∧ (carolAcct.failed_login_attempts = 0 → l' = carolAcct) :=
  login_success_resets_counter carolAcct [] 100 "9.9.9.9" "carol" "pw-carol" (by decide)

/-- Python truthiness of an optional string column: None and "" are falsy. -/
def pyTruthy : Option String → Bool
  | none => false
  | some s => !s.isEmpty

/-- Lecturer._clear_email_change_data (models.py 101-108): reset the five
email-change fields and save; one save() covers every field of the row, so an
email update staged before the call is persisted in the same step. -/
def _clear_email_change_data (l : Lecturer) : Lecturer :=
  { l with new_email := none, email_change_token := none,
           email_change_token_created := none, email_verification_code := none,
           email_verification_code_created := none }

/-- Lines 92-99 of models.py: copy new_email into email, then clear all the
email-change fields, and build the success message. -/
def confirm_email_change_apply (l : Lecturer) : Bool × String × Lecturer :=
  let old_email := l.email
  let cleared := _clear_email_change_data { l with email := l.new_email.getD "" }
  (true, "Email successfully changed from " ++ old_email ++ " to "
    ++ cleared.email ++ ".", cleared)

/-- Lecturer.confirm_email_change (models.py 62-99).
Verification is by 6-digit code when one is passed (and truthy), else by the
stored token. An expired code or token clears the challenge and fails; a match
inside the window applies the email change and clears the challenge. When the
code or token matches but its created timestamp column is NULL, the Python
subtraction `timezone.now() - None` raises TypeError, modelled as the error
case. -/
def confirm_email_change (l : Lecturer) (now : Int) (verification_code : Option String) :
    Except String (Bool × String × Lecturer) :=
  if !(pyTruthy l.new_email)
      || (!(pyTruthy l.email_change_token) && !(pyTruthy verification_code)) then
    Except.ok (false, "No pending email change to confirm.", l)
  else if pyTruthy verification_code then
    if !(pyTruthy l.email_verification_code)
        || !(l.email_verification_code == verification_code) then
      Except.ok (false, "Invalid verification code.", l)
    else
      match l.email_verification_code_created with
      | none => Except.error "TypeError"
      | some created =>
        if 15 < now - created then
          Except.ok (false, "The verification code has expired. Please request a new one.",
            _clear_email_change_data l)
        else
          Except.ok (confirm_email_change_apply l)
  else
    if !(pyTruthy l.email_change_token) then
      Except.ok (false, "Invalid verification link.", l)
    else
      match l.email_change_token_created with
      | none => Except.error "TypeError"
      | some created =>
        if 15 < now - created then
          Except.ok (false, "The email change link has expired. Please request a new one.",
            _clear_email_change_data l)
        else
          Except.ok (confirm_email_change_apply l)

/-- C5: a successful confirm_email_change applies the staged address to email
and clears every challenge field in the same returned state (one save), and
any later confirmation attempt on that state - with any code or none - fails
with the no-pending-change message and leaves the state untouched. -/
theorem confirm_email_change_once (l : Lecturer) (now : Int) (code : Option String)
    (msg : String) (l' : Lecturer)
    (h : confirm_email_change l now code = Except.ok (true, msg, l')) :
    l'.email = l.new_email.getD ""
    ∧ l'.new_email = none ∧ l'.email_change_token = none
    ∧ l'.email_change_token_created = none ∧ l'.email_verification_code = none
    ∧ l'.email_verification_code_created = none
    ∧ ∀ (now2 : Int) (code2 : Option String),
        confirm_email_change l' now2 code2 =
          Except.ok (false, "No pending email change to confirm.", l') := by
  unfold confirm_email_change at h
  split at h
  · simp at h
  · split at h
    · split at h
      · simp at h
      · split at h
        · simp at h
        · split at h
          · simp at h
          · rw [show Except.ok (confirm_email_change_apply l)
                  = Except.ok (ε := String) (true,
                      "Email successfully changed from " ++ l.email ++ " to "
                        ++ (l.new_email.getD "") ++ ".",
                      _clear_email_change_data { l with email := l.new_email.getD "" })
                from rfl] at h
            injection h with h1
            injection h1 with hb hrest
            injection hrest with hm hl
            subst hl
            refine ⟨rfl, rfl, rfl, rfl, rfl, rfl, ?_⟩
            intro now2 code2
            simp [confirm_email_change, _clear_email_change_data, pyTruthy]
    · split at h
      · simp at h
      · split at h
        · simp at h
        · split at h
          · simp at h
          · rw [show Except.ok (confirm_email_change_apply l)
                  = Except.ok (ε := String) (true,
                      "Email successfully changed from " ++ l.email ++ " to "
                        ++ (l.new_email.getD "") ++ ".",
                      _clear_email_change_data { l with email := l.new_email.getD "" })
                from rfl] at h
            injection h with h1
            injection h1 with hb hrest
            injection hrest with hm hl
            subst hl
            refine ⟨rfl, rfl, rfl, rfl, rfl, rfl, ?_⟩
            intro now2 code2
            simp [confirm_email_change, _clear_email_change_data, pyTruthy]

/-- An account with a staged email change: pending new address, stored 6-digit
code issued at minute 0, and (per the code's actual behaviour) no token. -/
def daveAcct : Lecturer :=
  ⟨4, "dave", "pw-dave", "dave@old.example", true, true,
   none, none, none, none, some "dave@new.example", none, none, some "123456", some 0,
   0, none, none⟩

/-- The state after dave's successful code confirmation. -/
def confirmedDave : Lecturer :=
  _clear_email_change_data { daveAcct with email := "dave@new.example" }

/-- C5 witness: the redeem-once theorem applied to dave's concrete successful
code confirmation five minutes after issuance. -/
theorem confirm_email_change_once_witness :
    confirmedDave.email = daveAcct.new_email.getD ""
    ∧ confirmedDave.new_email = none ∧ confirmedDave.email_change_token = none
    ∧ confirmedDave.email_change_token_created = none
    ∧ confirmedDave.email_verification_code = none
    ∧ confirmedDave.email_verification_code_created = none
    ∧ ∀ (now2 : Int) (code2 : Option String),
        confirm_email_change confirmedDave now2 code2 =
          Except.ok (false, "No pending email change to confirm.", confirmedDave) :=
  confirm_email_change_once daveAcct 5 (some "123456")
    "Email successfully changed from dave@old.example to dave@new.example."
    confirmedDave (by rfl)

/-- A Python value that can be handed to utils.is_token_valid: the lecturer
object the function expects, or - as views.py line 192 actually does - the
bare verification_token_created column (a datetime or None). -/
inductive PyVal
  | pyNone
  | pyDateTime (t : Int)
  | pyLecturer (l : Lecturer)

/-- Attribute access `x.verification_token_created`: defined on Lecturer
objects only; on a datetime or None it raises AttributeError. -/
def getattrVerificationTokenCreated : PyVal → Except String PyVal
  | PyVal.pyLecturer l =>
    Except.ok (match l.verification_token_created with
      | some t => PyVal.pyDateTime t
      | none => PyVal.pyNone)
  | _ => Except.error "AttributeError"

/-- utils.is_token_valid (utils.py 115-121): reads
lecturer.verification_token_created, answers False when it is unset, else
tests now < created + 24 hours. -/
def is_token_valid (now : Int) (lecturer : PyVal) : Except String Bool := do
  let created ← getattrVerificationTokenCreated lecturer
  match created with
  | PyVal.pyNone => pure false
  | PyVal.pyDateTime t => pure (decide (now < t + 24 * 60))
  | PyVal.pyLecturer _ => Except.error "TypeError"

/-- User-visible outcome of verify_email (views.py 174-249). -/
inductive VerifyEmailResponse
  | alreadyVerified
  | expiredResent
  | verifiedOk
  | invalidLink
  | genericError
deriving Repr, DecidableEq

/-- verify_email (views.py 174-249). Looks the account up by token
(get_object_or_404 -> invalidLink on miss), short-circuits when already
verified, then calls is_token_valid(user.verification_token_created) - passing
the datetime column, not the lecturer, so the attribute access inside the util
raises AttributeError, which the final `except Exception` turns into the
generic error message with no state change. The expired branch (lines
193-202, regenerate token as freshToken and resend) and the success branch
(lines 204-226) are kept for faithfulness. -/
def verify_email (db : List Lecturer) (now : Int) (token freshToken : String) :
    VerifyEmailResponse × List Lecturer :=
  match db.find? (fun l => l.verification_token == some token) with
  | none => (VerifyEmailResponse.invalidLink, db)
  | some u =>
    if u.email_verified then (VerifyEmailResponse.alreadyVerified, db)
    else
      match is_token_valid now (match u.verification_token_created with
          | some t => PyVal.pyDateTime t
          | none => PyVal.pyNone) with
      | Except.error _ => (VerifyEmailResponse.genericError, db)
      | Except.ok valid =>
        if !valid then
          let u' := { u with verification_token := some freshToken,
                             verification_token_created := some now }
          (VerifyEmailResponse.expiredResent, saveLecturer db u')
        else
          let u' := { u with email_verified := true, verification_token := none,
                             verification_token_created := none, is_active := true }
          (VerifyEmailResponse.verifiedOk, saveLecturer db u')

/-- An unverified account holding a registration verification token issued at
minute 0. -/
def eveAcct : Lecturer :=
  ⟨5, "eve", "pw-eve", "eve@example.com", false, false,
   some "tok-eve", some 0, none, none, none, none, none, none, none, 0, none, none⟩

/-- C4 (code divergence at the failing input): 25 hours after issuance eve's
token is expired by is_token_valid's own 24-hour rule, yet redeeming the
exactly-matching token yields the generic unexpected-error response - not the
Expired branch - and the stale challenge fields are NOT cleared (the database
is unchanged), because the view hands the datetime column to is_token_valid
and the resulting AttributeError lands in the catch-all handler. -/
theorem verify_email_expired_token_generic_error :
    is_token_valid (25 * 60) (PyVal.pyLecturer eveAcct) = Except.ok false
    ∧ is_token_valid (25 * 60)
        (match eveAcct.verification_token_created with
          | some t => PyVal.pyDateTime t
          | none => PyVal.pyNone) = Except.error "AttributeError"
    ∧ verify_email [eveAcct] (25 * 60) "tok-eve" "fresh-token"
        = (VerifyEmailResponse.genericError, [eveAcct]) :=
  ⟨rfl, rfl, rfl⟩

/-- Lecturer._generate_verification_token (models.py 110-112): the body is
only a pass statement, so the call returns None. -/
def _generate_verification_token (_l : Lecturer) : Option String := none

/-- utils.send_email_change_verification (utils.py 181-236): bails out when
new_email or email_change_token is missing; otherwise performs the delegated
email I/O, whose success is the environment input sendOk (on exception the
code returns error_msg[0], a one-character message - not relied upon here). -/
def send_email_change_verification (l : Lecturer) (sendOk : Bool) : Bool × String :=
  if !(pyTruthy l.new_email) || !(pyTruthy l.email_change_token) then
    (false, "No pending email change found.")
  else if sendOk then (true, "")
  else (false, "F")

/-- Lecturer.initiate_email_change (models.py 33-60). Rejects an address
already used by another row; otherwise stages new_email, sets
email_change_token from _generate_verification_token (hence None), stamps the
created times, stores the 6-digit code (the randint outcome is the input
`code`) and saves; when a request is present it then tries to send the
verification email and reports its failure, the state staying saved. -/
def initiate_email_change (db : List Lecturer) (l : Lecturer) (new_email : String)
    (now : Int) (code : Nat) (has_request sendOk : Bool) : Bool × String × Lecturer :=
  if db.any (fun o => o.email == new_email && !(o.id == l.id)) then
    (false, "This email is already in use by another account.", l)
  else
    let l' := { l with new_email := some new_email,
                       email_change_token := _generate_verification_token l,
                       email_change_token_created := some now,
                       email_verification_code := some (toString code),
                       email_verification_code_created := some now }
    if has_request then
      let res := send_email_change_verification l' sendOk
      if res.1 then (true, "Email change initiated successfully.", l')
      else (false, "Failed to send verification email: " ++ res.2, l')
    else (true, "Email change initiated successfully.", l')

/-- States of one account reachable through the email-change operations of the
model: any freshly created row (the email_change_token column defaults to
NULL), plus closure under initiate_email_change, confirm_email_change and
_clear_email_change_data. -/
inductive EmailChangeReachable : Lecturer → Prop
  | initial (l : Lecturer) (h : l.email_change_token = none) :
      EmailChangeReachable l
  | initiate (l : Lecturer) (db : List Lecturer) (new_email : String) (now : Int)
      (code : Nat) (has_request sendOk : Bool) (h : EmailChangeReachable l) :
      EmailChangeReachable
        (initiate_email_change db l new_email now code has_request sendOk).2.2
  | confirm (l l' : Lecturer) (now : Int) (code : Option String) (b : Bool)
      (msg : String) (h : EmailChangeReachable l)
      (hc : confirm_email_change l now code = Except.ok (b, msg, l')) :
      EmailChangeReachable l'
  | clear (l : Lecturer) (h : EmailChangeReachable l) :
      EmailChangeReachable (_clear_email_change_data l)

/-- Every reachable state carries email_change_token = none: the generator
returns None, and confirm/clear only erase it. -/
lemma reachable_email_change_token_none (l : Lecturer)
    (h : EmailChangeReachable l) : l.email_change_token = none := by
  induction h with
  | initial l h => exact h
  | initiate l db new_email now code has_request sendOk h ih =>
    unfold initiate_email_change
    split
    · exact ih
    · split
      · simp [send_email_change_verification, pyTruthy, _generate_verification_token]
      · rfl
  | confirm l l' now code b msg h hc ih =>
    unfold confirm_email_change at hc
    split at hc
    · injection hc with h1
      injection h1 with hb hrest
      injection hrest with hm hl
      rw [← hl]; exact ih
    · split at hc
      · split at hc
        · injection hc with h1
          injection h1 with hb hrest
          injection hrest with hm hl
          rw [← hl]; exact ih
        · split at hc
          · exact absurd hc (by simp)
          · split at hc
            · injection hc with h1
              injection h1 with hb hrest
              injection hrest with hm hl
              rw [← hl]; rfl
            · injection hc with h1
              injection h1 with hb hrest
              injection hrest with hm hl
              rw [← hl]; rfl
      · split at hc
        · injection hc with h1
          injection h1 with hb hrest
          injection hrest with hm hl
          rw [← hl]; exact ih
        · split at hc
          · exact absurd hc (by simp)
          · split at hc
            · injection hc with h1
              injection h1 with hb hrest
              injection hrest with hm hl
              rw [← hl]; rfl
            · injection hc with h1
              injection h1 with hb hrest
              injection hrest with hm hl
              rw [← hl]; rfl
  | clear l h ih => rfl

/-- C10: (1) after any initiate_email_change from a reachable state the stored
email_change_token is None (the generator's empty body returns None); (2)
email_change_token = None is an invariant of every reachable state; (3) from
any reachable state, confirm_email_change without a verification code (the
emailed-link path) returns failure with the no-pending-change message. -/
theorem initiate_email_change_token_is_none :
    (∀ (db : List Lecturer) (l : Lecturer) (new_email : String) (now : Int)
        (code : Nat) (has_request sendOk : Bool), EmailChangeReachable l →
      ((initiate_email_change db l new_email now code has_request sendOk).2.2).email_change_token
        = none)
    ∧ (∀ l : Lecturer, EmailChangeReachable l → l.email_change_token = none)
    ∧ (∀ (l : Lecturer) (now : Int), EmailChangeReachable l →
      confirm_email_change l now none =
        Except.ok (false, "No pending email change to confirm.", l)) := by
  refine ⟨?_, reachable_email_change_token_none, ?_⟩
  · intro db l new_email now code has_request sendOk h
    exact reachable_email_change_token_none _
      (EmailChangeReachable.initiate l db new_email now code has_request sendOk h)
  · intro l now h
    have htok := reachable_email_change_token_none l h
    unfold confirm_email_change
    rw [htok]
    simp [pyTruthy]

/-- A freshly registered account with no email-change state at all. -/
def frankAcct : Lecturer :=
  ⟨6, "frank", "pw-frank", "frank@example.com", true, true,
   none, none, none, none, none, none, none, none, none, 0, none, none⟩

/-- C10 witness: the theorem applied to frank's fresh account - the token
stored by a concrete initiate_email_change is None, and the link-path
confirmation fails. -/
theorem initiate_email_change_token_is_none_witness :
    ((initiate_email_change [frankAcct] frankAcct "frank@new.example" 0 123456
        true true).2.2).email_change_token = none
    ∧ confirm_email_change frankAcct 7 none =
        Except.ok (false, "No pending email change to confirm.", frankAcct) :=
  ⟨initiate_email_change_token_is_none.1 [frankAcct] frankAcct "frank@new.example"
      0 123456 true true (EmailChangeReachable.initial frankAcct rfl),
   initiate_email_change_token_is_none.2.2 frankAcct 7
      (EmailChangeReachable.initial frankAcct rfl)⟩

/-- utils.send_verification_email (utils.py 37-112): stores a fresh token and
6-digit code with their creation times and saves, then performs the delegated
email I/O whose success is the environment input sendOk; on an exception it
returns (False, "Failed to send verification email: " + text). -/
def send_verification_email (l : Lecturer) (token code : String) (now : Int)
    (errText : String) (sendOk : Bool) : Bool × String × Lecturer :=
  let l' := { l with verification_token := some token,
                     verification_token_created := some now,
                     verification_code := some code,
                     verification_code_created := some now }
  if sendOk then (true, "", l')
  else (false, "Failed to send verification email: " ++ errText, l')

/-- Python str.lower(), character by character. -/
def pyLower (s : String) : String := ⟨s.data.map Char.toLower⟩

/-- POST branch of resend_verification_email_view (views.py 252-316) combined
with ResendVerificationForm.clean_email (forms.py 145-154). The first
component is the user-visible message. The form lowercases the address and
rejects it when it belongs to an already-verified account; with a valid form
the view looks the account up again: a hit regenerates the token (tokenA, then
overwritten inside send_verification_email by tokenB) and reports the result
of the send, a miss produces the constant does-not-reveal message. The
intermediate save of tokenA (views.py lines 283-285) is immediately
overwritten by send_verification_email's save, so only the final row is kept. -/
def resend_verification_email_view (db : List Lecturer) (attempts : List LoginAttempt)
    (now : Int) (ip email tokenA tokenB code errText : String) (sendOk : Bool) :
    String × List Lecturer :=
  let cleaned := pyLower email
  match db.find? (fun l => l.email == cleaned) with
  | some u =>
    if u.email_verified then
      ("This email is already verified.", db)
    else
      let rl := check_rate_limit attempts now ("resend_verify_" ++ ip) none 3 60
      if rl.is_blocked then
        ("Too many verification email requests. Please try again later.", db)
      else
        let u' := { u with verification_token := some tokenA,
                           verification_token_created := some now }
        let res := send_verification_email u' tokenB code now errText sendOk
        if res.1 then
          ("Verification email has been resent. Please check your inbox. The link will expire in 15 minutes.",
            saveLecturer db res.2.2)
        else
          ("Failed to send verification email. Error: " ++ res.2.1
            ++ ". Please try again later.", saveLecturer db res.2.2)
  | none =>
    ("If an account exists with this email, a verification link has been sent.", db)

/-- A registered but not yet verified account. -/
def graceAcct : Lecturer :=
  ⟨7, "grace", "pw-grace", "grace@example.com", false, false,
   none, none, none, none, none, none, none, none, none, 0, none, none⟩

/-- C7: two resend requests identical except for whether the submitted address
belongs to a registered account produce different user-visible messages - the
registered (unverified) address gets the it-has-been-resent message, the
unregistered one gets the if-an-account-exists message - so the response
reveals registration status, contrary to the claim (and to the code's own
comment on views.py line 304). -/
theorem resend_message_reveals_registration :
    (resend_verification_email_view [graceAcct] [] 0 "9.9.9.9" "grace@example.com"
        "tokA" "tokB" "654321" "" true).1
      = "Verification email has been resent. Please check your inbox. The link will expire in 15 minutes."
    ∧ (resend_verification_email_view [] [] 0 "9.9.9.9" "grace@example.com"
        "tokA" "tokB" "654321" "" true).1
      = "If an account exists with this email, a verification link has been sent."
    ∧ (resend_verification_email_view [graceAcct] [] 0 "9.9.9.9" "grace@example.com"
        "tokA" "tokB" "654321" "" true).1
      ≠ (resend_verification_email_view [] [] 0 "9.9.9.9" "grace@example.com"
        "tokA" "tokB" "654321" "" true).1 := by
  refine ⟨rfl, rfl, ?_⟩
  decide

/-- Row of the Course table (lecturer/models.py 133-152); the TimeFields are
kept as (hour, minute) pairs. -/
structure Course where
  id : Nat
  lecturer_username : String
  title : String
  day : String
  start_hour : Nat
  start_minute : Nat
  end_hour : Nat
  end_minute : Nat
  qr_code : Option String
  qr_code_url : Option String
deriving Repr, DecidableEq

/-- Two-digit zero-padded field of strftime. -/
def pad2 (n : Nat) : String := if n < 10 then "0" ++ toString n else toString n

/-- time.strftime('%H:%M') as used on views.py lines 442-443. -/
def strftimeHM (h m : Nat) : String := pad2 h ++ ":" ++ pad2 m

/-- json.dumps escaping of one character, for the printable repertoire
occurring in course data (quote and backslash; the json control-character
escapes cannot occur in these fields). -/
def jsonEscapeChar (c : Char) : List Char :=
  if c = '"' ∨ c = '\\' then ['\\', c] else [c]

/-- json.dumps escaping of a character sequence. -/
def jsonEscape : List Char → List Char
  | [] => []
  | c :: rest => jsonEscapeChar c ++ jsonEscape rest

/-- A json string literal: quote, escaped body, quote. -/
def jsonQuoted (s : String) : List Char :=
  '"' :: (jsonEscape s.data ++ ['"'])

/-- One json object member with json.dumps' default ": " separator. -/
def jsonMember (k : String) (v : List Char) : List Char :=
  jsonQuoted k ++ (':' :: ' ' :: v)

/-- The QR payload bytes: json.dumps of the dict built on views.py lines
438-445, keys in insertion order (course_id, title, day, start_time, end_time,
timestamp), with ", " between members; ts is the isoformat generation
timestamp. -/
def qr_payload (c : Course) (ts : String) : List Char :=
  '\x7b' :: (jsonMember "course_id" (toString c.id).data
    ++ (',' :: ' ' :: jsonMember "title" (jsonQuoted c.title))
    ++ (',' :: ' ' :: jsonMember "day" (jsonQuoted c.day))
    ++ (',' :: ' ' :: jsonMember "start_time"
          (jsonQuoted (strftimeHM c.start_hour c.start_minute)))
    ++ (',' :: ' ' :: jsonMember "end_time"
          (jsonQuoted (strftimeHM c.end_hour c.end_minute)))
    ++ (',' :: ' ' :: jsonMember "timestamp" (jsonQuoted ts))
    ++ ['\x7d'])

/-- Escaping is the identity on strings without quotes or backslashes, such as
datetime.isoformat() output. -/
lemma jsonEscape_id (l : List Char) (h : ∀ ch ∈ l, ch ≠ '"' ∧ ch ≠ '\\') :
    jsonEscape l = l := by
  induction l with
  | nil => rfl
  | cons a t ih =>
    have ha := h a (by simp)
    have hrest : ∀ ch ∈ t, ch ≠ '"' ∧ ch ≠ '\\' := fun ch hm => h ch (by simp [hm])
    simp [jsonEscape, jsonEscapeChar, ha.1, ha.2, ih hrest]

/-- C8: the QR payload is a function of exactly the course id, title, day,
start/end time and the generation timestamp (same fields and timestamp give
identical bytes), and for a fixed course two different isoformat timestamps
give different payloads. -/
theorem qr_payload_unique_per_issuance :
    (∀ (c1 c2 : Course) (ts : String),
      c1.id = c2.id → c1.title = c2.title → c1.day = c2.day →
      c1.start_hour = c2.start_hour → c1.start_minute = c2.start_minute →
      c1.end_hour = c2.end_hour → c1.end_minute = c2.end_minute →
      qr_payload c1 ts = qr_payload c2 ts)
    ∧ (∀ (c : Course) (ts1 ts2 : String),
      (∀ ch ∈ ts1.data, ch ≠ '"' ∧ ch ≠ '\\') →
      (∀ ch ∈ ts2.data, ch ≠ '"' ∧ ch ≠ '\\') →
      ts1 ≠ ts2 → qr_payload c ts1 ≠ qr_payload c ts2) := by
  constructor
  · intro c1 c2 ts h1 h2 h3 h4 h5 h6 h7
    unfold qr_payload
    rw [h1, h2, h3, h4, h5, h6, h7]
  · intro c ts1 ts2 hq1 hq2 hne heq
    apply hne
    have e1 := jsonEscape_id ts1.data hq1
    have e2 := jsonEscape_id ts2.data hq2
    unfold qr_payload jsonMember jsonQuoted at heq
    rw [e1, e2] at heq
    simp only [List.cons.injEq, List.append_assoc, List.append_cancel_left_eq,
      List.append_cancel_right_eq, List.cons_inj_right, true_and] at heq
    exact String.ext heq

/-- A concrete course owned by alice. -/
def demoCourse : Course :=
  ⟨1, "alice", "Networking Fundamentals", "Monday", 9, 0, 11, 30, none, none⟩

/-- C8 witness: the payload theorem applied to a concrete course and two
concrete isoformat timestamps. -/
theorem qr_payload_unique_per_issuance_witness :
    qr_payload demoCourse "2025-01-01T09:00:00"
      = qr_payload demoCourse "2025-01-01T09:00:00"
    ∧ qr_payload demoCourse "2025-01-01T09:00:00"
      ≠ qr_payload demoCourse "2025-01-01T10:00:00" :=
  ⟨qr_payload_unique_per_issuance.1 demoCourse demoCourse "2025-01-01T09:00:00"
      rfl rfl rfl rfl rfl rfl rfl,
   qr_payload_unique_per_issuance.2 demoCourse "2025-01-01T09:00:00"
      "2025-01-01T10:00:00" (by decide) (by decide) (by decide)⟩

/-- Body of a generate_qr JSON response: the success shape of views.py lines
477-481 or the error shape of lines 435, 484 and 486. -/
inductive QrBody
  | success (qr_code_url message : String)
  | error (message : String)
deriving Repr, DecidableEq

/-- generate_qr (views.py 430-486), returning (http status, json body).
Course lookup misses give 404 and non-owners 403. On the owner path the view
builds the payload (lines 437-455, pure) and then evaluates the names BytesIO
(line 465) and File (line 469), neither of which views.py imports, so the
first of them raises NameError; the catch-all `except Exception` turns it into
the 500 response, and the 200 success JSON of lines 477-481 is unreachable. -/
def generate_qr (courses : List Course) (request_user : String) (course_id : Nat)
    (ts : String) : Nat × QrBody :=
  match courses.find? (fun c => c.id == course_id) with
  | none => (404, QrBody.error "Course not found")
  | some c =>
    if !(c.lecturer_username == request_user) then
      (403, QrBody.error "You do not have permission to generate QR code for this course")
    else
      let _qr_data := qr_payload c ts
      (500, QrBody.error "name 'BytesIO' is not defined")

/-- C9: the statuses the endpoint actually produces. The 403 (non-owner) and
404 (missing course) responses match the claim, but a request by the owning
account - for which the claim promises a 200 success body - always yields the
500 NameError response, because BytesIO is never imported; no request at all
receives status 200. -/
theorem generate_qr_owner_request_is_500 :
    generate_qr [demoCourse] "alice" 1 "2025-01-01T09:00:00"
      = (500, QrBody.error "name 'BytesIO' is not defined")
    ∧ generate_qr [demoCourse] "mallory" 1 "2025-01-01T09:00:00"
      = (403, QrBody.error "You do not have permission to generate QR code for this course")
    ∧ generate_qr [demoCourse] "alice" 2 "2025-01-01T09:00:00"
      = (404, QrBody.error "Course not found")
    ∧ ∀ (courses : List Course) (request_user : String) (course_id : Nat) (ts : String),
        (generate_qr courses request_user course_id ts).1 ≠ 200 := by
  refine ⟨rfl, rfl, rfl, ?_⟩
  intro courses request_user course_id ts
  unfold generate_qr
  split
  · decide
  · split
    · decide
    · decide
